import Mathlib

/-!
Shallow embedding of `pulsar/async/actor.py` (class `Actor`): the lifecycle
state machine (`start`, `stop`, `_stop`, `_run`), the mailbox dispatch loop
(`flush`), sender resolution (`get_actor`), request dispatch
(`handle_request_from_actor` and the built-in `actor_*` handlers), the
metaclass-built dispatch table (`ActorMetaClass`), and the per-tick entry
point (`__call__`, here `tick_call`).

Timestamps and the supervision timeout are modelled as rationals.  Side
effects that leave the actor (proxy sends, local waiter resolution, log
lines, hook invocations, event-loop bookkeeping) are recorded in ghost
trace fields of the state so that the claims about them can be stated.
The external mailbox is modelled as the trace of outcomes its successive
`get` calls produce: an item, or an `IOError` fault; an exhausted trace is
the `Empty` outcome.
-/

deriving instance DecidableEq for Except

namespace Pulsar

/-- Python values that flow through the modelled handlers. -/
inductive Val
  | vnone
  | vstr (s : String)
  | vnat (n : Nat)
  | vrat (q : ℚ)
  | vinfo (aid : String)
deriving DecidableEq

/-- Python exceptions the modelled code can raise. -/
inductive PyExn
  | keyError
  | attributeError
  | typeError
deriving DecidableEq

/-- Objects `get_actor` can return: a fresh `ActorProxy` (also used for the
arbiter and monitor proxies handed to `_init`) or a `LinkedActor` wrapper
from the link registry.  Each carries the actor id it refers to. -/
inductive ActorRef
  | proxy (aid : String)
  | linked (aid : String)
deriving DecidableEq

/-- Actor id carried by a reference (`.aid` attribute). -/
def ActorRef.aid : ActorRef → String
  | ActorRef.proxy a => a
  | ActorRef.linked a => a

/-- A message envelope (`ActorRequest`): sender aid, message name, payload
`msg = (args, kwargs)`, and the correlation id `rid`. -/
structure ActorRequest where
  aid : String
  name : String
  args : List Val
  kwargs : List (String × Val)
  rid : Nat
deriving DecidableEq

/-- A message emitted through a proxy (`self.proxy.<name>(target, ...)`):
target actor aid (none when the Python target object was `None`), message
name and positional payload. -/
structure SentMsg where
  target : Option String
  name : String
  payload : List Val
deriving DecidableEq

/-- Local or external side effects of handlers. -/
inductive Effect
  | callbackResolved (rid : Val) (result : Val)
  | setNotified (aid : String) (t : Val)
deriving DecidableEq

/-- Ordered events of the `_stop` body, used to state in which order the
finalisation steps run. -/
inductive Ev
  | onExitHook
  | setClose
  | removeLoopTask
  | sendExitToArbiter
  | clearStopping
  | closeInbox
deriving DecidableEq

/-- Log lines the modelled code writes. -/
inductive LogEntry
  | booting
  | unlinkedActor
  | workerError (e : PyExn)
  | excInWorker
  | exitingRun
deriving DecidableEq

/-- One outcome of a `inbox.get(timeout)` call: an envelope, or an
`IOError` fault raised by the queue.  An exhausted trace models `Empty`. -/
inductive PopResult
  | item (r : ActorRequest)
  | ioFault
deriving DecidableEq

/-- Lifecycle constant `INITIAL = 0x0`. -/
def INITIAL : Nat := 0

/-- Lifecycle constant `RUN = 0x1`. -/
def RUN : Nat := 1

/-- Lifecycle constant `CLOSE = 0x2`. -/
def CLOSE : Nat := 2

/-- Lifecycle constant `TERMINATE = 0x3`. -/
def TERMINATE : Nat := 3

/-- Constant `DEFAULT_ACTOR_TIMEOUT = 30`. -/
def DEFAULT_ACTOR_TIMEOUT : ℚ := 30

/-- Constant `ACTOR_TIMEOUT_TOLERANCE = 0.2`. -/
def ACTOR_TIMEOUT_TOLERANCE : ℚ := 1/5

/-- Constant `INBOX_TIMEOUT = 0.02` (the bounded-pop wait; the wait itself
is abstracted into the mailbox trace). -/
def INBOX_TIMEOUT : ℚ := 1/50

/-- The modelled state of one `Actor` instance, together with ghost traces
of its observable side effects. -/
structure ActorState where
  aid : String
  impl : String
  timeout : ℚ
  arbiter : Option String
  monitor : Option String
  linked : List (String × String)
  actor_links : Bool
  state : Nat
  stopping : Bool
  lastNotified : Option ℚ
  inbox : List PopResult
  sent : List SentMsg
  effects : List Effect
  events : List Ev
  logs : List LogEntry
  dispatches : List (Option String × String)
  onTaskCount : Nat
  onStartCount : Nat
  onStopCount : Nat
  stopRequested : Bool
deriving DecidableEq

/-- `Actor.get_actor(aid)`: self proxy, then the link registry, then the
arbiter, then the monitor; `None` otherwise. -/
def get_actor (s : ActorState) (aid : String) : Option ActorRef :=
  if aid = s.aid then some (ActorRef.proxy s.aid)
  else
    match List.lookup aid s.linked with
    | some la => some (ActorRef.linked la)
    | Option.none =>
        if s.arbiter.isSome ∧ s.arbiter = some aid then some (ActorRef.proxy aid)
        else if s.monitor.isSome ∧ s.monitor = some aid then some (ActorRef.proxy aid)
        else Option.none

/-- `Actor.is_alive()`: `state == RUN`. -/
def is_alive (s : ActorState) : Bool := s.state = RUN

/-- `Actor.started()`: `state >= RUN`. -/
def started (s : ActorState) : Bool := RUN ≤ s.state

/-- `Actor.closed()`: `state == CLOSE`. -/
def closedState (s : ActorState) : Bool := s.state = CLOSE

/-- `Actor.stopped()`: `state >= CLOSE`. -/
def stopped (s : ActorState) : Bool := CLOSE ≤ s.state

/-- `Actor.stop()`: when alive and not already stopping, set the stopping
flag, run the `on_stop` hook (the base hook returns `None`, falsy), and
request the event loop to stop with `_stop` as completion callback;
otherwise do nothing. -/
def stop (s : ActorState) : ActorState :=
  if is_alive s ∧ s.stopping = false then
    { s with stopping := true, onStopCount := s.onStopCount + 1, stopRequested := true }
  else s

/-- `Actor._stop()`: the finalisation callback.  Its body runs only when
the stopping flag is set: `on_exit` hook, state `CLOSE`, remove the loop
task, notify the arbiter of exit unless this is a monitor, clear the
stopping flag, close the inbox (last step).  The body order is recorded in
`events`. -/
def _stop (s : ActorState) : ActorState :=
  if s.stopping = true then
    let s1 := { s with events := s.events ++ [Ev.onExitHook] }
    let s2 := { s1 with state := CLOSE, events := s1.events ++ [Ev.setClose] }
    let s3 := { s2 with events := s2.events ++ [Ev.removeLoopTask] }
    let s4 :=
      if s3.impl ≠ "monitor" then
        { s3 with sent := s3.sent ++ [SentMsg.mk s3.arbiter ("on_actor_exit") []],
                  events := s3.events ++ [Ev.sendExitToArbiter] }
      else s3
    let s5 := { s4 with stopping := false, events := s4.events ++ [Ev.clearStopping] }
    { s5 with events := s5.events ++ [Ev.closeInbox] }
  else s

/-- How the event-loop run call exits: normal return, an ordinary
exception, or `SystemExit`. -/
inductive RunOutcome
  | normal
  | exc
  | systemExit
deriving DecidableEq

/-- `Actor._run()`: run the loop to the given outcome; an ordinary
exception is logged and swallowed, `SystemExit` is re-raised; `finally`
logs and calls `_stop()`.  Returns the final state and whether an
exception propagates out of the run call. -/
def _run (s : ActorState) (o : RunOutcome) : ActorState × Bool :=
  let s1 :=
    match o with
    | RunOutcome.normal => s
    | RunOutcome.exc => { s with logs := s.logs ++ [LogEntry.excInWorker] }
    | RunOutcome.systemExit => s
  let s2 := { s1 with logs := s1.logs ++ [LogEntry.exitingRun] }
  (_stop s2, o = RunOutcome.systemExit)

/-- `Actor.start()`: from `INITIAL` run the `on_start` hook, log a boot
message, set state `RUN` and enter `_run`; the returned flag is whether
the call returned `self` (a non-`INITIAL` call falls through and returns
`None`).  The last component is whether `SystemExit` propagates. -/
def start (s : ActorState) (o : RunOutcome) : ActorState × Bool × Bool :=
  if s.state = INITIAL then
    let s1 := { s with onStartCount := s.onStartCount + 1, logs := s.logs ++ [LogEntry.booting] }
    let s2 := { s1 with state := RUN }
    let r := _run s2 o
    (r.1, true, r.2)
  else (s, false, false)

/-- The six `actor_*` methods defined on `Actor`. -/
inductive HandlerName
  | hcallback
  | hstop
  | hnotify
  | honActorExit
  | hinfo
  | hping
deriving DecidableEq

/-- `getattr(self, 'actor_' + name, None)`: resolve a message name to the
matching `actor_*` method of `Actor`. -/
def getActorMethod (name : String) : Option HandlerName :=
  if name = "callback" then some HandlerName.hcallback
  else if name = "stop" then some HandlerName.hstop
  else if name = "notify" then some HandlerName.hnotify
  else if name = "on_actor_exit" then some HandlerName.honActorExit
  else if name = "info" then some HandlerName.hinfo
  else if name = "ping" then some HandlerName.hping
  else Option.none

/-- The explicit `ack` attribute set on each handler in the source
(`actor_callback.ack = False`, ...); `info` and `ping` carry none. -/
def ackAttr : HandlerName → Option Bool
  | HandlerName.hcallback => some false
  | HandlerName.hstop => some false
  | HandlerName.hnotify => some false
  | HandlerName.honActorExit => some false
  | HandlerName.hinfo => Option.none
  | HandlerName.hping => Option.none

/-- `getattr(func, 'ack', True)`: the ack flag of a handler, defaulting to
`True` when no explicit attribute is set. -/
def ackOf (h : HandlerName) : Bool := (ackAttr h).getD true

/-- `key.startswith('actor_')` together with `key[len('actor_'):]`: match
the `actor_` character prefix and return the remaining characters. -/
def dropActorChars (cs : List Char) : Option (List Char) :=
  match cs with
  | 'a' :: 'c' :: 't' :: 'o' :: 'r' :: '_' :: rest => some rest
  | _ => Option.none

/-- One step of the `ActorMetaClass` table construction: a class attribute
(method name paired with its optional explicit `ack` attribute) becomes a
dispatch-table entry when the name starts with the `actor_` prefix, with
`ack = getattr(method, 'ack', True)`. -/
def mkEntry (p : String × Option Bool) : Option (String × Bool) :=
  match dropActorChars p.1.data with
  | some rest => some (String.mk rest, (p.2).getD true)
  | Option.none => Option.none

/-- `ActorMetaClass.__new__` table construction over a class attribute
list (the base-class merge is trivial for `Actor`, whose base has no
table). -/
def metaFunctions (attrs : List (String × Option Bool)) : List (String × Bool) :=
  attrs.filterMap mkEntry

/-- The `actor_*` attributes of `Actor` with their explicit `ack`
attributes, in source order. -/
def actorMethodAttrs : List (String × Option Bool) :=
  [("actor_callback", some false),
   ("actor_stop", some false),
   ("actor_notify", some false),
   ("actor_on_actor_exit", some false),
   ("actor_info", Option.none),
   ("actor_ping", Option.none)]

/-- `Actor.actor_functions`: the metaclass-built dispatch table of
`Actor`, mapping message name to ack flag. -/
def actor_functions : List (String × Bool) := metaFunctions actorMethodAttrs

/-- What `getattr(self, 'actor_' + name, None)` can find on an `Actor`
instance besides `None`: one of the six `actor_*` handler methods, the
metaclass-installed dispatch-table dict `actor_functions` (name
`functions`), or the `actor_links` instance attribute set by `_init`
(name `links`). -/
inductive ActorAttr
  | method (h : HandlerName)
  | functionsTable
  | linksAttr
deriving DecidableEq

/-- Full model of `getattr(self, 'actor_' + name, None)`: the handler
methods by name convention, plus the two non-method `actor_*` attributes
every `Actor` carries. -/
def getActorAttr (name : String) : Option ActorAttr :=
  match getActorMethod name with
  | some h => some (ActorAttr.method h)
  | Option.none =>
      if name = "functions" then some ActorAttr.functionsTable
      else if name = "links" then some ActorAttr.linksAttr
      else Option.none

/-- Run one built-in handler `func(caller, *args, **kwargs)`.  Arity
mismatches raise `TypeError`; `actor_notify` and `actor_on_actor_exit`
dereference `caller` and raise `AttributeError` on a `None` caller;
`actor_on_actor_exit` pops the caller's aid from the link registry and
raises `KeyError` when absent.  Every raise in the source precedes any
state mutation, so an error returns no state. -/
def runHandler (s : ActorState) (h : HandlerName) (caller : Option ActorRef)
    (req : ActorRequest) : Except PyExn (ActorState × Val) :=
  match h with
  | HandlerName.hcallback =>
      match req.args, req.kwargs with
      | [rid, result], [] =>
          Except.ok ({ s with effects := s.effects ++ [Effect.callbackResolved rid result] },
                     Val.vnone)
      | _, _ => Except.error PyExn.typeError
  | HandlerName.hstop =>
      match req.args, req.kwargs with
      | [], [] => Except.ok (stop s, Val.vnone)
      | _, _ => Except.error PyExn.typeError
  | HandlerName.hnotify =>
      match req.args, req.kwargs with
      | [t], [] =>
          match caller with
          | Option.none => Except.error PyExn.attributeError
          | some c =>
              Except.ok ({ s with effects := s.effects ++ [Effect.setNotified (ActorRef.aid c) t] },
                         Val.vnone)
      | _, _ => Except.error PyExn.typeError
  | HandlerName.honActorExit =>
      let arityOk : Bool :=
        match req.args, req.kwargs with
        | [], [] => true
        | [_], [] => true
        | [], [(k, _)] => k = "reason"
        | _, _ => false
      if arityOk then
        match caller with
        | Option.none => Except.error PyExn.attributeError
        | some c =>
            match List.lookup (ActorRef.aid c) s.linked with
            | some _ =>
                Except.ok ({ s with linked := s.linked.eraseP (fun p => p.1 == ActorRef.aid c) },
                           Val.vnone)
            | Option.none => Except.error PyExn.keyError
      else Except.error PyExn.typeError
  | HandlerName.hinfo =>
      match req.args, req.kwargs with
      | [], [] => Except.ok (s, Val.vinfo s.aid)
      | _, _ => Except.error PyExn.typeError
  | HandlerName.hping =>
      match req.args, req.kwargs with
      | [], [] => Except.ok (s, Val.vstr ("pong"))
      | _, _ => Except.error PyExn.typeError

/-- `Actor.handle_request_from_actor(caller, request)`: resolve
`actor_<name>` with `getattr`; if nothing is found, do nothing.  A found
handler method runs and, when its ack flag is set, one `callback`
envelope is sent to the caller carrying the request's `rid` and the
handler's result.  The name `functions` finds the metaclass dict
`actor_functions`, which is non-empty (truthy, so `if func:` passes) but
not callable: `func(caller, ...)` raises `TypeError` before any state
effect or callback.  The name `links` finds `self.actor_links`: falsy
(`None` or an empty mapping) skips the `if func:` body silently, and a
truthy links mapping likewise raises `TypeError` when called. -/
def handle_request_from_actor (s : ActorState) (caller : Option ActorRef)
    (req : ActorRequest) : Except PyExn ActorState :=
  match getActorAttr req.name with
  | Option.none => Except.ok s
  | some (ActorAttr.method h) =>
      match runHandler s h caller req with
      | Except.error e => Except.error e
      | Except.ok (s1, result) =>
          if ackOf h then
            Except.ok { s1 with
              sent := s1.sent ++
                [SentMsg.mk (Option.map ActorRef.aid caller) ("callback")
                  [Val.vnat req.rid, result]] }
          else Except.ok s1
  | some ActorAttr.functionsTable => Except.error PyExn.typeError
  | some ActorAttr.linksAttr =>
      if s.actor_links = true then Except.error PyExn.typeError else Except.ok s

/-- The body of one `flush` loop iteration for a retrieved envelope:
resolve the sender; on an unresolved sender while not closing, log and
fall to the per-tick break; otherwise dispatch (recording the dispatch in
the ghost trace), catching and logging any exception.  Returns the new
state and whether the loop breaks (`if not closing: break`, skipped when
the dispatch raised). -/
def flushStep (closing : Bool) (s : ActorState) (req : ActorRequest) :
    ActorState × Bool :=
  let caller := get_actor s req.aid
  if caller = Option.none ∧ closing = false then
    ({ s with logs := s.logs ++ [LogEntry.unlinkedActor] }, true)
  else
    let s0 := { s with dispatches := s.dispatches ++ [(Option.map ActorRef.aid caller, req.name)] }
    match handle_request_from_actor s0 caller req with
    | Except.ok s1 => (s1, !closing)
    | Except.error e => ({ s0 with logs := s0.logs ++ [LogEntry.workerError e] }, false)

/-- The `while True` loop of `flush`, recursing over the mailbox trace: an
exhausted trace is the `Empty` break, an `IOError` fault breaks, an item
is processed by `flushStep`. -/
def flushGo (closing : Bool) : List PopResult → ActorState → ActorState
  | [], s => { s with inbox := [] }
  | PopResult.ioFault :: rest, s => { s with inbox := rest }
  | PopResult.item req :: rest, s =>
      let r := flushStep closing { s with inbox := rest } req
      if r.2 then r.1 else flushGo closing rest r.1

/-- `Actor.flush(closing=False)`. -/
def flush (s : ActorState) (closing : Bool) : ActorState :=
  flushGo closing s.inbox s

/-- The debounce interval `tole` of the heartbeat: `DEFAULT_ACTOR_TIMEOUT`
when `not self.timeout` (timeout zero), else
`ACTOR_TIMEOUT_TOLERANCE * self.timeout`. -/
def toleOf (s : ActorState) : ℚ :=
  if s.timeout = 0 then DEFAULT_ACTOR_TIMEOUT else ACTOR_TIMEOUT_TOLERANCE * s.timeout

/-- The heartbeat body of `Actor.__call__` (already inside the guard
`self.arbiter and self.impl != 'monitor'`): `nt = time()`; when a previous
notification exists and `nt - last_notified < tole`, `nt` is set to
`None`; `if nt:` (so also skipping a zero timestamp, `0.0` being falsy)
record `last_notified = nt` and send `notify(nt)` to the arbiter. -/
def heartbeatStep (s : ActorState) (now : ℚ) : ActorState :=
  let nt : Option ℚ :=
    match s.lastNotified with
    | Option.none => some now
    | some ln =>
        if now - ln < toleOf s then Option.none else some now
  match nt with
  | some v =>
      if v ≠ 0 then
        { s with lastNotified := some v,
                 sent := s.sent ++ [SentMsg.mk s.arbiter ("notify") [Val.vrat v]] }
      else s
  | Option.none => s

/-- Final statement of `Actor.__call__`: `if not self._stopping:
self.on_task()`. -/
def onTaskStep (x : ActorState) : ActorState :=
  if x.stopping = false then { x with onTaskCount := x.onTaskCount + 1 } else x

/-- `Actor.__call__()`: flush one envelope, then (for a non-monitor with
an arbiter) the heartbeat check, then the `on_task` hook unless
stopping. -/
def tick_call (s : ActorState) (now : ℚ) : ActorState :=
  onTaskStep
    (if (flush s false).arbiter.isSome ∧ (flush s false).impl ≠ "monitor"
     then heartbeatStep (flush s false) now
     else flush s false)

/-- The operations the outside world can invoke on an actor. -/
inductive ActorOp
  | opStart (o : RunOutcome)
  | opStop
  | opStopCb
  | opTick (now : ℚ)

/-- Apply one operation to the actor state. -/
def applyOp (s : ActorState) : ActorOp → ActorState
  | ActorOp.opStart o => (start s o).1
  | ActorOp.opStop => stop s
  | ActorOp.opStopCb => _stop s
  | ActorOp.opTick now => tick_call s now

/-- Number of `notify` envelopes in a sent-message trace. -/
def notifyCount (l : List SentMsg) : Nat :=
  (l.filter (fun m => m.name = "notify")).length

/-- Number of `callback` envelopes in a sent-message trace. -/
def cbCount (l : List SentMsg) : Nat :=
  (l.filter (fun m => m.name = "callback")).length

/-- Number of unlinked-actor log lines in a log trace. -/
def unlinkedCount (l : List LogEntry) : Nat :=
  (l.filter (fun e => e = LogEntry.unlinkedActor)).length

/-- The state `flushStep` dispatches against: the dispatch ghost trace is
extended with the resolved caller's aid and the message name. -/
def dispatchRecorded (s : ActorState) (req : ActorRequest) : ActorState :=
  { s with dispatches :=
      s.dispatches ++ [(Option.map ActorRef.aid (get_actor s req.aid), req.name)] }

/-- The ordered side effects of one execution of the `_stop` body. -/
def stopSeg (impl : String) : List Ev :=
  [Ev.onExitHook, Ev.setClose, Ev.removeLoopTask] ++
    (if impl ≠ "monitor" then [Ev.sendExitToArbiter] else []) ++
    [Ev.clearStopping, Ev.closeInbox]

/-- A concrete running actor used to instantiate the theorems: a process
actor with an arbiter, a monitor, an empty link registry and an empty
mailbox. -/
def sampleState : ActorState :=
  { aid := "a1", impl := "process", timeout := 10, arbiter := some "arb",
    monitor := some "mon", linked := [], actor_links := false, state := RUN,
    stopping := false,
    lastNotified := Option.none, inbox := [], sent := [], effects := [],
    events := [], logs := [], dispatches := [], onTaskCount := 0,
    onStartCount := 0, onStopCount := 0, stopRequested := false }

/-- `sampleState` with the stopping flag set (a `stop()` has happened). -/
def stoppingState : ActorState := { sampleState with stopping := true }

/-- `sampleState` already closed. -/
def closedSample : ActorState := { sampleState with state := CLOSE }

/-- A `ping` envelope from the sample actor itself. -/
def pingReq : ActorRequest :=
  { aid := "a1", name := "ping", args := [], kwargs := [], rid := 2 }

/-- An `on_actor_exit` envelope from the sample actor itself. -/
def exitReq : ActorRequest :=
  { aid := "a1", name := "on_actor_exit", args := [], kwargs := [], rid := 1 }

/-- An envelope whose name matches no handler. -/
def bogusReq : ActorRequest :=
  { aid := "a1", name := "does_not_exist", args := [], kwargs := [], rid := 9 }

/-- A `ping` envelope from an unknown sender aid. -/
def strangerReq : ActorRequest :=
  { aid := "zz", name := "ping", args := [], kwargs := [], rid := 3 }

/-- The sample actor with an `on_actor_exit` envelope (whose handler will
raise `KeyError`: the registry is empty) followed by a `ping` envelope. -/
def twoItemState : ActorState :=
  { sampleState with inbox := [PopResult.item exitReq, PopResult.item pingReq] }

/-- The sample actor with one envelope from an unknown sender queued. -/
def strangerState : ActorState :=
  { sampleState with inbox := [PopResult.item strangerReq] }

/-- The sample actor with one entry in its link registry. -/
def linkedSample : ActorState := { sampleState with linked := [("x", "x")] }

/-- An `on_actor_exit` envelope from the linked actor `x`. -/
def exitReqX : ActorRequest :=
  { aid := "x", name := "on_actor_exit", args := [], kwargs := [], rid := 4 }

/-- The expected dispatch result of `pingReq`: one acknowledgement
callback envelope back to the sender. -/
def pingResult : ActorState :=
  { sampleState with
      sent := [SentMsg.mk (some "a1") ("callback") [Val.vnat 2, Val.vstr ("pong")]] }

/-- An envelope named `functions`, from the sample actor itself: its
`getattr` lookup finds the metaclass dict `actor_functions`. -/
def functionsReq : ActorRequest :=
  { aid := "a1", name := "functions", args := [], kwargs := [], rid := 5 }

/-- The sample actor with the `functions` envelope queued. -/
def functionsState : ActorState :=
  { sampleState with inbox := [PopResult.item functionsReq] }

/-- The sample actor with the `functions` envelope queued ahead of a
`ping`. -/
def functionsTwoState : ActorState :=
  { sampleState with inbox := [PopResult.item functionsReq, PopResult.item pingReq] }

/-- A name that resolves to a handler method resolves to it through the
full attribute lookup as well. -/
lemma getActorAttr_method {name : String} {h : HandlerName}
    (hname : getActorMethod name = some h) :
    getActorAttr name = some (ActorAttr.method h) := by
  unfold getActorAttr
  rw [hname]

/-- Dispatch reduced to the resolved handler. -/
lemma handle_eq_of_name {s : ActorState} {c : Option ActorRef} {req : ActorRequest}
    {h : HandlerName} (hname : getActorMethod req.name = some h) :
    handle_request_from_actor s c req =
      (match runHandler s h c req with
       | Except.error e => Except.error e
       | Except.ok (s1, result) =>
           if ackOf h then
             Except.ok { s1 with
               sent := s1.sent ++
                 [SentMsg.mk (Option.map ActorRef.aid c) ("callback")
                   [Val.vnat req.rid, result]] }
           else Except.ok s1) := by
  simp only [handle_request_from_actor, getActorAttr_method hname]

/-- Fields `stop` never touches, and the stopping flag only ever rises. -/
lemma stop_inv (s : ActorState) :
    (stop s).aid = s.aid ∧ (stop s).impl = s.impl ∧ (stop s).timeout = s.timeout ∧
    (stop s).arbiter = s.arbiter ∧ (stop s).monitor = s.monitor ∧ (stop s).state = s.state ∧
    (stop s).lastNotified = s.lastNotified ∧ (stop s).inbox = s.inbox ∧ (stop s).sent = s.sent ∧
    (stop s).events = s.events ∧ (stop s).logs = s.logs ∧ (stop s).dispatches = s.dispatches ∧
    (stop s).onTaskCount = s.onTaskCount ∧ (stop s).onStartCount = s.onStartCount ∧
    (stop s).linked = s.linked ∧
    (s.stopping = true → (stop s).stopping = true) := by
  unfold stop; split <;> simp

/-- Fields a successfully run handler never touches. -/
lemma runHandler_ok_inv {s : ActorState} {h : HandlerName} {c : Option ActorRef}
    {req : ActorRequest} {s1 : ActorState} {v : Val}
    (hok : runHandler s h c req = Except.ok (s1, v)) :
    s1.aid = s.aid ∧ s1.impl = s.impl ∧ s1.timeout = s.timeout ∧
    s1.arbiter = s.arbiter ∧ s1.monitor = s.monitor ∧ s1.state = s.state ∧
    s1.lastNotified = s.lastNotified ∧ s1.inbox = s.inbox ∧ s1.sent = s.sent ∧
    s1.events = s.events ∧ s1.logs = s.logs ∧ s1.dispatches = s.dispatches ∧
    s1.onTaskCount = s.onTaskCount ∧ s1.onStartCount = s.onStartCount ∧
    (s.stopping = true → s1.stopping = true) := by
  cases h <;> simp only [runHandler] at hok <;> (repeat' split at hok) <;>
    (cases hok <;> first | (unfold stop; split <;> simp) | simp)

/-- A successful dispatch extends `sent` only by `callback` envelopes and
leaves the other observed fields alone. -/
lemma handle_ok_inv {s : ActorState} {c : Option ActorRef} {req : ActorRequest}
    {s1 : ActorState} (hok : handle_request_from_actor s c req = Except.ok s1) :
    s1.impl = s.impl ∧ s1.timeout = s.timeout ∧ s1.arbiter = s.arbiter ∧
    s1.state = s.state ∧ s1.lastNotified = s.lastNotified ∧ s1.inbox = s.inbox ∧
    s1.logs = s.logs ∧ s1.dispatches = s.dispatches ∧ s1.onTaskCount = s.onTaskCount ∧
    (s.stopping = true → s1.stopping = true) ∧
    (∃ ext, s1.sent = s.sent ++ ext ∧ ∀ m ∈ ext, m.name = "callback") := by
  unfold handle_request_from_actor at hok
  split at hok
  · cases hok
    exact ⟨rfl, rfl, rfl, rfl, rfl, rfl, rfl, rfl, rfl, fun h => h, ⟨[], by simp, by simp⟩⟩
  case h_3 =>
    cases hok
  case h_4 =>
    split at hok
    · cases hok
    · cases hok
      exact ⟨rfl, rfl, rfl, rfl, rfl, rfl, rfl, rfl, rfl, fun h => h, ⟨[], by simp, by simp⟩⟩
  · split at hok
    · cases hok
    · rename_i sh res hrun
      obtain ⟨ha, hi, ht, harb, hmon, hst, hln, hin, hsent, hev, hlg, hdp, hot, hos, hstp⟩ :=
        runHandler_ok_inv hrun
      split at hok <;> cases hok
      · exact ⟨hi, ht, harb, hst, hln, hin, hlg, hdp, hot, hstp,
          ⟨[SentMsg.mk (Option.map ActorRef.aid c) ("callback") [Val.vnat req.rid, res]],
           by simpa using hsent, by simp⟩⟩
      · exact ⟨hi, ht, harb, hst, hln, hin, hlg, hdp, hot, hstp, ⟨[], by simp [hsent], by simp⟩⟩

/-- Unresolved sender while not closing: log and break. -/
lemma flushStep_unresolved {s : ActorState} {req : ActorRequest}
    (h1 : get_actor s req.aid = Option.none) :
    flushStep false s req = ({ s with logs := s.logs ++ [LogEntry.unlinkedActor] }, true) := by
  unfold flushStep; simp [h1]

/-- Dispatch succeeded: the handler's result state is returned and the
loop breaks exactly when not closing. -/
lemma flushStep_dispatch_ok {c : Bool} {s : ActorState} {req : ActorRequest} {s1 : ActorState}
    (hng : ¬(get_actor s req.aid = Option.none ∧ c = false))
    (hh : handle_request_from_actor (dispatchRecorded s req) (get_actor s req.aid) req =
          Except.ok s1) :
    flushStep c s req = (s1, !c) := by
  unfold flushStep
  simp only [dispatchRecorded] at hh
  simp [hng, hh]

/-- Dispatch raised: the exception is logged and the loop continues. -/
lemma flushStep_dispatch_err {c : Bool} {s : ActorState} {req : ActorRequest} {e : PyExn}
    (hng : ¬(get_actor s req.aid = Option.none ∧ c = false))
    (hh : handle_request_from_actor (dispatchRecorded s req) (get_actor s req.aid) req =
          Except.error e) :
    flushStep c s req =
      ({ dispatchRecorded s req with
           logs := (dispatchRecorded s req).logs ++ [LogEntry.workerError e] }, false) := by
  unfold flushStep
  simp only [dispatchRecorded] at hh
  simp [hng, hh, dispatchRecorded]

/-- One retrieved envelope's processing step: the observed fields it can
change are the logs (extended), the dispatch trace (extended) and what a
handler may change; `sent` only grows by `callback` envelopes, and the
unlinked-actor log line is only emitted when not closing. -/
lemma flushStep_inv (c : Bool) (s : ActorState) (req : ActorRequest) :
    (flushStep c s req).1.impl = s.impl ∧ (flushStep c s req).1.timeout = s.timeout ∧
    (flushStep c s req).1.arbiter = s.arbiter ∧ (flushStep c s req).1.state = s.state ∧
    (flushStep c s req).1.lastNotified = s.lastNotified ∧
    (flushStep c s req).1.inbox = s.inbox ∧
    (flushStep c s req).1.onTaskCount = s.onTaskCount ∧
    (s.stopping = true → (flushStep c s req).1.stopping = true) ∧
    (∃ ext, (flushStep c s req).1.sent = s.sent ++ ext ∧ ∀ m ∈ ext, m.name = "callback") ∧
    (c = true → unlinkedCount (flushStep c s req).1.logs = unlinkedCount s.logs) := by
  by_cases hg : get_actor s req.aid = Option.none ∧ c = false
  · obtain ⟨hg1, hg2⟩ := hg
    subst hg2
    rw [flushStep_unresolved hg1]
    exact ⟨rfl, rfl, rfl, rfl, rfl, rfl, rfl, fun h => h, ⟨[], by simp, by simp⟩,
           fun hc => by cases hc⟩
  · rcases hh : handle_request_from_actor (dispatchRecorded s req) (get_actor s req.aid) req with
      e | s1
    · rw [flushStep_dispatch_err hg hh]
      refine ⟨rfl, rfl, rfl, rfl, rfl, rfl, rfl, fun h => h, ⟨[], by simp [dispatchRecorded], by simp⟩, ?_⟩
      intro _; simp [unlinkedCount, dispatchRecorded]
    · rw [flushStep_dispatch_ok hg hh]
      obtain ⟨hi, ht, harb, hst, hln, hin, hlg, hdp, hot, hstp, hext⟩ := handle_ok_inv hh
      refine ⟨hi, ht, harb, hst, hln, hin, hot, hstp, ?_, fun _ => by rw [hlg]; rfl⟩
      simpa [dispatchRecorded] using hext

/-- Unfolding of the flush loop on a retrieved envelope. -/
lemma flushGo_cons_item (c : Bool) (req : ActorRequest) (rest : List PopResult)
    (s : ActorState) :
    flushGo c (PopResult.item req :: rest) s =
      (if (flushStep c { s with inbox := rest } req).2 = true
       then (flushStep c { s with inbox := rest } req).1
       else flushGo c rest (flushStep c { s with inbox := rest } req).1) := by
  simp only [flushGo]

/-- The flush loop preserves the lifecycle and heartbeat fields, never
clears the stopping flag, only ever sends `callback` envelopes, and while
closing never emits the unlinked-actor log line. -/
lemma flushGo_inv (c : Bool) : ∀ (tr : List PopResult) (s : ActorState),
    (flushGo c tr s).impl = s.impl ∧ (flushGo c tr s).timeout = s.timeout ∧
    (flushGo c tr s).arbiter = s.arbiter ∧ (flushGo c tr s).state = s.state ∧
    (flushGo c tr s).lastNotified = s.lastNotified ∧
    (flushGo c tr s).onTaskCount = s.onTaskCount ∧
    (s.stopping = true → (flushGo c tr s).stopping = true) ∧
    (∃ ext, (flushGo c tr s).sent = s.sent ++ ext ∧ ∀ m ∈ ext, m.name = "callback") ∧
    (c = true → unlinkedCount (flushGo c tr s).logs = unlinkedCount s.logs)
  | [], s => by
      refine ⟨rfl, rfl, rfl, rfl, rfl, rfl, fun h => h, ⟨[], by simp [flushGo], by simp⟩, ?_⟩
      intro _; rfl
  | PopResult.ioFault :: rest, s => by
      refine ⟨rfl, rfl, rfl, rfl, rfl, rfl, fun h => h, ⟨[], by simp [flushGo], by simp⟩, ?_⟩
      intro _; rfl
  | PopResult.item req :: rest, s => by
      have hstep := flushStep_inv c { s with inbox := rest } req
      obtain ⟨hi, ht, harb, hst, hln, hin, hot, hstp, ⟨e1, he1, hn1⟩, hul⟩ := hstep
      rw [flushGo_cons_item]
      by_cases hbrk : (flushStep c { s with inbox := rest } req).2 = true
      · rw [if_pos hbrk]
        exact ⟨hi, ht, harb, hst, hln, hot, hstp, ⟨e1, he1, hn1⟩, hul⟩
      · rw [if_neg hbrk]
        have hrec := flushGo_inv c rest (flushStep c { s with inbox := rest } req).1
        obtain ⟨ri, rt, rarb, rst, rln, rot, rstp, ⟨e2, he2, hn2⟩, rul⟩ := hrec
        refine ⟨by rw [ri, hi], by rw [rt, ht], by rw [rarb, harb], by rw [rst, hst],
                by rw [rln, hln], by rw [rot, hot], fun h => rstp (hstp h),
                ⟨e1 ++ e2, by rw [he2, he1, List.append_assoc],
                 by intro m hm; rcases List.mem_append.mp hm with h | h;
                    exacts [hn1 m h, hn2 m h]⟩,
                fun hc => by rw [rul hc, hul hc]⟩

/-- `_stop` does nothing when the stopping flag is clear. -/
lemma _stop_noop {s : ActorState} (h : s.stopping = false) : _stop s = s := by
  unfold _stop; rw [h]; simp

/-- Closed form of the `_stop` body when the stopping flag is set. -/
lemma _stop_body {s : ActorState} (h : s.stopping = true) :
    _stop s =
      { s with
          state := CLOSE, stopping := false,
          sent := if s.impl ≠ "monitor"
                  then s.sent ++ [SentMsg.mk s.arbiter ("on_actor_exit") []]
                  else s.sent,
          events := s.events ++ stopSeg s.impl } := by
  unfold _stop; rw [if_pos h]
  by_cases hm : s.impl = "monitor" <;> simp [hm, stopSeg]

/-- Counting facts about one `_stop` body event segment: `on_exit` runs
once, the mailbox close runs once and is the last step, the loop task is
removed, and the arbiter exit notification appears exactly for
non-monitors. -/
lemma stopSeg_facts (impl : String) :
    (stopSeg impl).count Ev.onExitHook = 1 ∧
    (stopSeg impl).count Ev.closeInbox = 1 ∧
    (stopSeg impl).getLast? = some Ev.closeInbox ∧
    Ev.removeLoopTask ∈ stopSeg impl ∧
    (impl ≠ "monitor" → Ev.sendExitToArbiter ∈ stopSeg impl) ∧
    (impl = "monitor" → Ev.sendExitToArbiter ∉ stopSeg impl) := by
  by_cases hm : impl = "monitor" <;> simp [stopSeg, hm]

/-- Fields `heartbeatStep` never touches. -/
lemma heartbeatStep_inv (s : ActorState) (now : ℚ) :
    (heartbeatStep s now).state = s.state ∧ (heartbeatStep s now).stopping = s.stopping ∧
    (heartbeatStep s now).onTaskCount = s.onTaskCount ∧
    (heartbeatStep s now).arbiter = s.arbiter ∧ (heartbeatStep s now).impl = s.impl ∧
    (heartbeatStep s now).logs = s.logs ∧ (heartbeatStep s now).linked = s.linked := by
  unfold heartbeatStep
  rcases s.lastNotified with _ | ln <;> simp <;> (repeat' split) <;> simp

/-- Appending only `callback` envelopes does not change the `notify`
count. -/
lemma notifyCount_append_callbacks (x ext : List SentMsg)
    (h : ∀ m ∈ ext, m.name = "callback") :
    notifyCount (x ++ ext) = notifyCount x := by
  unfold notifyCount
  rw [List.filter_append, List.length_append]
  have : ext.filter (fun m => m.name = "notify") = [] := by
    rw [List.filter_eq_nil_iff]
    intro m hm
    simp [h m hm]
  rw [this]
  simp

/-- Appending only `callback` envelopes to a callback-counted trace adds
their number. -/
lemma cbCount_append_single (x : List SentMsg) (m : SentMsg) (h : m.name = "callback") :
    cbCount (x ++ [m]) = cbCount x + 1 := by
  unfold cbCount
  rw [List.filter_append, List.length_append]
  simp [List.filter, h]

/-- A key absent from the key list is not found by `lookup`. -/
lemma lookup_eq_none_of_not_mem (a : String) :
    ∀ (l : List (String × String)), a ∉ l.map Prod.fst →
      List.lookup a l = Option.none := by
  intro l
  induction l with
  | nil => intro _; rfl
  | cons hd t ih =>
      intro h
      obtain ⟨k, v⟩ := hd
      rw [List.map_cons, List.mem_cons] at h
      push_neg at h
      have hk : (a == k) = false := by
        simp only [beq_eq_false_iff_ne]
        exact h.1
      simp only [List.lookup, hk]
      exact ih h.2

/-- Popping a key from a registry with distinct keys removes it. -/
lemma lookup_eraseP_self (a : String) :
    ∀ (l : List (String × String)), (l.map Prod.fst).Nodup →
      List.lookup a (l.eraseP (fun p => p.1 == a)) = Option.none := by
  intro l
  induction l with
  | nil => intro _; rfl
  | cons hd t ih =>
      intro hnd
      obtain ⟨k, v⟩ := hd
      rw [List.map_cons, List.nodup_cons] at hnd
      by_cases hk : k = a
      · subst hk
        simp only [List.eraseP_cons, beq_self_eq_true, cond_true]
        exact lookup_eq_none_of_not_mem k t hnd.1
      · have hk2 : ((k, v).1 == a) = false := by
          simp only [beq_eq_false_iff_ne]; exact hk
        have hk3 : (a == k) = false := by
          simp only [beq_eq_false_iff_ne]; exact fun he => hk he.symm
        simp only [List.eraseP_cons, hk2, cond_false]
        simp only [List.lookup, hk3]
        exact ih hnd.2

/-- Popping one key leaves every other key's binding unchanged. -/
lemma lookup_eraseP_other (a b : String) (hne : b ≠ a) :
    ∀ (l : List (String × String)),
      List.lookup b (l.eraseP (fun p => p.1 == a)) = List.lookup b l := by
  intro l
  induction l with
  | nil => rfl
  | cons hd t ih =>
      obtain ⟨k, v⟩ := hd
      by_cases hk : k = a
      · subst hk
        simp only [List.eraseP_cons, beq_self_eq_true, cond_true]
        have hkb : (b == k) = false := by
          simp only [beq_eq_false_iff_ne]
          exact hne
        simp only [List.lookup, hkb]
      · have hk2 : ((k, v).1 == a) = false := by
          simp only [beq_eq_false_iff_ne]; exact hk
        simp only [List.eraseP_cons, hk2, cond_false]
        by_cases hkb : k = b
        · subst hkb
          simp only [List.lookup, beq_self_eq_true]
        · have hkb2 : (b == k) = false := by
            simp only [beq_eq_false_iff_ne]
            exact fun he => hkb he.symm
          simp only [List.lookup, hkb2]
          exact ih

/-- Evaluation of the name-convention lookup at the built-in names. -/
lemma getActorMethod_exit : getActorMethod ("on_actor_exit") = some HandlerName.honActorExit := by
  decide

/-- Evaluation of the name-convention lookup at `ping`. -/
lemma getActorMethod_ping : getActorMethod ("ping") = some HandlerName.hping := by
  decide

/-- `actor_on_actor_exit` pops the caller's aid: success case. -/
lemma runHandler_exit_pop {s : ActorState} {c : ActorRef} {req : ActorRequest} {x : String}
    (hargs : req.args = []) (hkw : req.kwargs = [])
    (hlk : List.lookup (ActorRef.aid c) s.linked = some x) :
    runHandler s HandlerName.honActorExit (some c) req =
      Except.ok ({ s with linked := s.linked.eraseP (fun p => p.1 == ActorRef.aid c) },
                 Val.vnone) := by
  unfold runHandler
  rw [hargs, hkw]
  simp [hlk]

/-- `actor_on_actor_exit` raises `KeyError` when the caller's aid is not
in the registry. -/
lemma runHandler_exit_keyError {s : ActorState} {c : ActorRef} {req : ActorRequest}
    (hargs : req.args = []) (hkw : req.kwargs = [])
    (hlk : List.lookup (ActorRef.aid c) s.linked = Option.none) :
    runHandler s HandlerName.honActorExit (some c) req = Except.error PyExn.keyError := by
  unfold runHandler
  rw [hargs, hkw]
  simp [hlk]

/-- C7.  `get_actor(aid)` resolves in priority order: the actor's own aid
yields its own fresh proxy, then the link registry entry, then the arbiter
proxy, then the monitor proxy, and an absent result when none match. -/
theorem c7_get_actor_priority (s : ActorState) (aid : String) :
    (aid = s.aid → get_actor s aid = some (ActorRef.proxy s.aid)) ∧
    (aid ≠ s.aid → ∀ la, List.lookup aid s.linked = some la →
        get_actor s aid = some (ActorRef.linked la)) ∧
    (aid ≠ s.aid → List.lookup aid s.linked = Option.none → s.arbiter = some aid →
        get_actor s aid = some (ActorRef.proxy aid)) ∧
    (aid ≠ s.aid → List.lookup aid s.linked = Option.none → s.arbiter ≠ some aid →
        s.monitor = some aid → get_actor s aid = some (ActorRef.proxy aid)) ∧
    (aid ≠ s.aid → List.lookup aid s.linked = Option.none → s.arbiter ≠ some aid →
        s.monitor ≠ some aid → get_actor s aid = Option.none) := by
  refine ⟨?_, ?_, ?_, ?_, ?_⟩
  · intro h; unfold get_actor; rw [if_pos h]
  · intro h la hlk; unfold get_actor; rw [if_neg h]; simp [hlk]
  · intro h hlk harb; unfold get_actor; rw [if_neg h]; simp [hlk, harb]
  · intro h hlk harb hmon; unfold get_actor; rw [if_neg h]
    simp [hlk, hmon]
  · intro h hlk harb hmon; unfold get_actor; rw [if_neg h]
    have ha : ¬(s.arbiter.isSome = true ∧ s.arbiter = some aid) := fun h2 => harb h2.2
    have hm : ¬(s.monitor.isSome = true ∧ s.monitor = some aid) := fun h2 => hmon h2.2
    simp [hlk, ha, hm]

/-- C7 witness: the priority resolution evaluated on the sample actor,
whose arbiter has aid `arb`. -/
theorem c7_witness : get_actor sampleState "arb" = some (ActorRef.proxy "arb") :=
  (c7_get_actor_priority sampleState "arb").2.2.1 (by decide) rfl rfl

/-- Evaluation of the full attribute lookup at the name `functions`. -/
lemma getActorAttr_functions : getActorAttr ("functions") = some ActorAttr.functionsTable := by
  decide

/-- Evaluation of the full attribute lookup at the name `links`. -/
lemma getActorAttr_links : getActorAttr ("links") = some ActorAttr.linksAttr := by
  decide

/-- C8 counterexample: the name `functions` matches no entry in the
dispatch table, yet dispatching it is not a silent drop: `getattr` finds
the metaclass dict `actor_functions` itself, calling it raises
`TypeError`, the flush loop logs the error, and — the per-tick break
being skipped on an exception — continues with the next envelope. -/
theorem c8_counterexample :
    List.lookup "functions" actor_functions = Option.none ∧
    handle_request_from_actor sampleState (some (ActorRef.proxy "a1")) functionsReq =
      Except.error PyExn.typeError ∧
    (flush functionsState false).logs = [LogEntry.workerError PyExn.typeError] ∧
    (flush functionsTwoState false).dispatches.length = 2 ∧
    cbCount (flush functionsTwoState false).sent = 1 := by
  decide

/-- C8 amended.  Dispatching an envelope whose name resolves to no
`actor_<name>` attribute at all — or to the `actor_links` attribute while
that attribute is falsy (`None` or empty) — returns the state unchanged
with no callback envelope: a genuinely silent drop.  The names that reach
a non-method attribute are the exception: `functions` finds the truthy
metaclass dict `actor_functions` and `links` with a truthy links mapping
finds that mapping; both are not callable, so the dispatch raises
`TypeError` (still no state change and no callback), which the flush loop
catches and logs before continuing with the next pop — dropped with an
error log, not silently. -/
theorem c8_attr_dispatch (s : ActorState) (caller : Option ActorRef)
    (req : ActorRequest) :
    (getActorAttr req.name = Option.none →
        handle_request_from_actor s caller req = Except.ok s) ∧
    (req.name = "links" → s.actor_links = false →
        handle_request_from_actor s caller req = Except.ok s) ∧
    (req.name = "links" → s.actor_links = true →
        handle_request_from_actor s caller req = Except.error PyExn.typeError) ∧
    (req.name = "functions" →
        handle_request_from_actor s caller req = Except.error PyExn.typeError) ∧
    (∀ rest, s.inbox = PopResult.item req :: rest → req.name = "functions" →
        get_actor { s with inbox := rest } req.aid ≠ Option.none →
        flush s false =
          flushGo false rest
            { dispatchRecorded { s with inbox := rest } req with
                logs := (dispatchRecorded { s with inbox := rest } req).logs ++
                  [LogEntry.workerError PyExn.typeError] }) := by
  refine ⟨?_, ?_, ?_, ?_, ?_⟩
  · intro h
    simp only [handle_request_from_actor, h]
  · intro hn hl
    simp [handle_request_from_actor, hn, getActorAttr_links, hl]
  · intro hn hl
    simp [handle_request_from_actor, hn, getActorAttr_links, hl]
  · intro hn
    simp only [handle_request_from_actor, hn, getActorAttr_functions]
  · intro rest hin hn hres
    have hh : handle_request_from_actor (dispatchRecorded { s with inbox := rest } req)
        (get_actor { s with inbox := rest } req.aid) req = Except.error PyExn.typeError := by
      simp only [handle_request_from_actor, hn, getActorAttr_functions]
    have hng : ¬(get_actor { s with inbox := rest } req.aid = Option.none ∧
        false = false) := fun h2 => hres h2.1
    have hflush : flush s false = flushGo false (PopResult.item req :: rest) s := by
      unfold flush
      rw [hin]
    rw [hflush, flushGo_cons_item, flushStep_dispatch_err hng hh]
    rw [if_neg (by simp : ¬(false = true))]

/-- C8 witness: a genuinely unknown name on the sample actor is silently
dropped, while the `functions` envelope raises `TypeError`. -/
theorem c8_attr_witness :
    handle_request_from_actor sampleState (some (ActorRef.proxy "a1")) bogusReq =
      Except.ok sampleState ∧
    handle_request_from_actor sampleState (some (ActorRef.proxy "a1")) functionsReq =
      Except.error PyExn.typeError :=
  ⟨(c8_attr_dispatch sampleState (some (ActorRef.proxy "a1")) bogusReq).1 (by decide),
   (c8_attr_dispatch sampleState (some (ActorRef.proxy "a1")) functionsReq).2.2.2.1 rfl⟩

/-- C3.  The acknowledgement protocol: a dispatch-table entry built from a
method without an explicit `ack` attribute gets flag `true`; the built
table agrees with the per-dispatch flag; and dispatching an envelope whose
name resolves to a handler sends exactly one `callback` envelope to the
sender carrying the envelope's `rid` and the handler's result when the
flag is `true`, and none when it is `false`. -/
theorem c3_ack_protocol :
    (∀ (key : String) (rest : List Char) (a : Option Bool),
        dropActorChars key.data = some rest →
        mkEntry (key, a) = some (String.mk rest, a.getD true)) ∧
    (∀ p ∈ actor_functions, ∃ h, getActorMethod p.1 = some h ∧ ackOf h = p.2) ∧
    (∀ (s : ActorState) (caller : Option ActorRef) (req : ActorRequest)
        (h : HandlerName) (s1 : ActorState),
        getActorMethod req.name = some h →
        handle_request_from_actor s caller req = Except.ok s1 →
        (ackOf h = true → ∃ res,
            s1.sent = s.sent ++ [SentMsg.mk (Option.map ActorRef.aid caller) ("callback")
              [Val.vnat req.rid, res]] ∧
            cbCount s1.sent = cbCount s.sent + 1) ∧
        (ackOf h = false → s1.sent = s.sent)) := by
  refine ⟨?_, by decide, ?_⟩
  · intro key rest a hd
    unfold mkEntry
    rw [hd]
  · intro s caller req h s1 hname hok
    rw [handle_eq_of_name hname] at hok
    split at hok
    · cases hok
    · rename_i sh res hrun
      have hsent := (runHandler_ok_inv hrun).2.2.2.2.2.2.2.2.1
      split at hok <;> cases hok
      · rename_i hack
        constructor
        · intro _
          refine ⟨res, ?_, ?_⟩
          · simp [hsent]
          · simp only [hsent]
            exact cbCount_append_single s.sent _ rfl
        · intro hf; rw [hack] at hf; cases hf
      · rename_i hack
        constructor
        · intro ht
          rw [Bool.not_eq_true] at hack
          rw [ht] at hack; cases hack
        · intro _; exact hsent

/-- C3 witness: dispatching `ping` (default-acknowledged handler) on the
sample actor produces exactly one callback envelope bearing the request's
rid and the result `pong`. -/
theorem c3_witness : cbCount pingResult.sent = cbCount sampleState.sent + 1 := by
  obtain ⟨res, hsent, hcb⟩ :=
    ((c3_ack_protocol.2.2 sampleState (some (ActorRef.proxy "a1")) pingReq
        HandlerName.hping pingResult (by decide) (by decide)).1 rfl)
  exact hcb

/-- Unfolding of the flush loop on the empty trace. -/
lemma flushGo_nil (c : Bool) (s : ActorState) :
    flushGo c [] s = { s with inbox := [] } := rfl

/-- C10.  `actor_on_actor_exit` pops exactly the caller's entry from the
link registry when present; when the caller's aid is absent it raises
`KeyError`, which the flush loop catches and logs, leaving the registry
unchanged and the tick alive. -/
theorem c10_on_actor_exit_pop (s : ActorState) (c : ActorRef) (req : ActorRequest)
    (a : String) (hca : ActorRef.aid c = a)
    (hargs : req.args = []) (hkw : req.kwargs = []) :
    (∀ x, List.lookup a s.linked = some x → (s.linked.map Prod.fst).Nodup →
        runHandler s HandlerName.honActorExit (some c) req =
          Except.ok ({ s with linked := s.linked.eraseP (fun p => p.1 == a) }, Val.vnone) ∧
        List.lookup a (s.linked.eraseP (fun p => p.1 == a)) = Option.none ∧
        (∀ b, b ≠ a → List.lookup b (s.linked.eraseP (fun p => p.1 == a)) =
          List.lookup b s.linked)) ∧
    (List.lookup a s.linked = Option.none →
        runHandler s HandlerName.honActorExit (some c) req = Except.error PyExn.keyError) ∧
    (∀ r2 : ActorRequest, s.inbox = [PopResult.item r2] → r2.name = "on_actor_exit" →
        r2.args = [] → r2.kwargs = [] → r2.aid = s.aid →
        List.lookup s.aid s.linked = Option.none →
        (flush s false).linked = s.linked ∧
        (flush s false).logs = s.logs ++ [LogEntry.workerError PyExn.keyError]) := by
  subst hca
  refine ⟨?_, ?_, ?_⟩
  · intro x hlk hnd
    refine ⟨runHandler_exit_pop hargs hkw hlk, ?_, ?_⟩
    · exact lookup_eraseP_self (ActorRef.aid c) s.linked hnd
    · intro b hb
      exact lookup_eraseP_other (ActorRef.aid c) b hb s.linked
  · intro hlk
    exact runHandler_exit_keyError hargs hkw hlk
  · intro r2 hin hn hg1 hg2 haid hlk
    have hflush : flush s false = flushGo false [PopResult.item r2] s := by
      unfold flush; rw [hin]
    rw [hflush, flushGo_cons_item]
    have hres : get_actor { s with inbox := ([] : List PopResult) } r2.aid =
        some (ActorRef.proxy s.aid) := by
      unfold get_actor
      rw [haid]
      simp
    have hname : getActorMethod r2.name = some HandlerName.honActorExit := by
      rw [hn]; exact getActorMethod_exit
    have hrun : runHandler (dispatchRecorded { s with inbox := ([] : List PopResult) } r2)
        HandlerName.honActorExit (get_actor { s with inbox := ([] : List PopResult) } r2.aid)
        r2 = Except.error PyExn.keyError := by
      rw [hres]
      exact runHandler_exit_keyError hg1 hg2 (by simpa [haid] using hlk)
    have hh : handle_request_from_actor
        (dispatchRecorded { s with inbox := ([] : List PopResult) } r2)
        (get_actor { s with inbox := ([] : List PopResult) } r2.aid) r2 =
        Except.error PyExn.keyError := by
      rw [handle_eq_of_name hname, hrun]
    have hng : ¬(get_actor { s with inbox := ([] : List PopResult) } r2.aid = Option.none ∧
        false = false) := by
      intro h2
      rw [hres] at h2
      cases h2.1
    rw [flushStep_dispatch_err hng hh]
    rw [if_neg (by simp : ¬(false = true))]
    rw [flushGo_nil]
    exact ⟨rfl, rfl⟩

/-- C10 witness: popping the linked actor `x` from the sample registry
removes its binding. -/
theorem c10_witness :
    List.lookup "x" (linkedSample.linked.eraseP (fun p => p.1 == "x")) = Option.none :=
  (((c10_on_actor_exit_pop linkedSample (ActorRef.proxy "x") exitReqX "x" rfl rfl rfl).1
      "x" (by decide) (by decide)).2.1)

/-- C9.  During a shutdown drain (`flush(closing=True)`), an envelope with
an unresolvable sender aid is still dispatched, with a `None` caller (the
dispatch trace records the absent sender), and the unlinked-actor log line
is never produced while closing; with `closing=False` the same envelope is
logged and dropped without dispatch. -/
theorem c9_closing_dispatches_unresolved (s : ActorState) (req : ActorRequest)
    (rest : List PopResult) (hin : s.inbox = PopResult.item req :: rest)
    (hun : get_actor { s with inbox := rest } req.aid = Option.none) :
    (∃ s2, flush s true = flushGo true rest s2 ∧
        s2.dispatches = s.dispatches ++ [(Option.none, req.name)] ∧
        unlinkedCount s2.logs = unlinkedCount s.logs) ∧
    flush s false = { s with inbox := rest, logs := s.logs ++ [LogEntry.unlinkedActor] } ∧
    (∀ t : ActorState, unlinkedCount (flush t true).logs = unlinkedCount t.logs) := by
  refine ⟨?_, ?_, ?_⟩
  · have hflush : flush s true = flushGo true (PopResult.item req :: rest) s := by
      unfold flush; rw [hin]
    rw [hflush, flushGo_cons_item]
    have hng : ¬(get_actor { s with inbox := rest } req.aid = Option.none ∧ true = false) := by
      intro h2; cases h2.2
    rcases hh : handle_request_from_actor (dispatchRecorded { s with inbox := rest } req)
        (get_actor { s with inbox := rest } req.aid) req with e | s1
    · rw [flushStep_dispatch_err hng hh]
      rw [if_neg (by simp : ¬(false = true))]
      refine ⟨_, rfl, ?_, ?_⟩
      · simp [dispatchRecorded, hun]
      · simp [unlinkedCount, dispatchRecorded]
    · rw [flushStep_dispatch_ok hng hh]
      split
      · rename_i hcontra
        simp at hcontra
      · refine ⟨s1, rfl, ?_, ?_⟩
        · have hdp := (handle_ok_inv hh).2.2.2.2.2.2.2.1
          rw [hdp]
          simp [dispatchRecorded, hun]
        · have hlg := (handle_ok_inv hh).2.2.2.2.2.2.1
          rw [hlg]
          rfl
  · have hflush : flush s false = flushGo false (PopResult.item req :: rest) s := by
      unfold flush; rw [hin]
    rw [hflush, flushGo_cons_item]
    rw [flushStep_unresolved hun]
    rw [if_pos rfl]
  · intro t
    exact (flushGo_inv true t.inbox t).2.2.2.2.2.2.2.2 rfl

/-- C9 witness: the stranger envelope at the sample actor, drained while
closing, is dispatched with an absent sender. -/
theorem c9_witness :
    ∃ s2, flush strangerState true = flushGo true [] s2 ∧
        s2.dispatches = strangerState.dispatches ++ [(Option.none, "ping")] ∧
        unlinkedCount s2.logs = unlinkedCount strangerState.logs :=
  (c9_closing_dispatches_unresolved strangerState strangerReq [] rfl (by decide)).1

/-- While closing, every retrieved envelope is dispatched (the dispatch
trace grows by one) and the loop never breaks. -/
lemma flushStep_closing_fields (s : ActorState) (req : ActorRequest) :
    (flushStep true s req).2 = false ∧
    (flushStep true s req).1.dispatches.length = s.dispatches.length + 1 := by
  have hng : ¬(get_actor s req.aid = Option.none ∧ true = false) := by
    intro h2; cases h2.2
  rcases hh : handle_request_from_actor (dispatchRecorded s req) (get_actor s req.aid) req with
    e | s1
  · rw [flushStep_dispatch_err hng hh]
    refine ⟨rfl, ?_⟩
    simp [dispatchRecorded]
  · rw [flushStep_dispatch_ok hng hh]
    refine ⟨rfl, ?_⟩
    have hdp := (handle_ok_inv hh).2.2.2.2.2.2.2.1
    show s1.dispatches.length = s.dispatches.length + 1
    rw [hdp]
    simp [dispatchRecorded]

/-- Drain-to-empty: with `closing=True` and no queue faults, the loop pops
and dispatches every envelope until the mailbox reports empty. -/
lemma flushGo_drain : ∀ (tr : List PopResult) (s : ActorState),
    (∀ x ∈ tr, ∃ r, x = PopResult.item r) →
    (flushGo true tr s).inbox = [] ∧
    (flushGo true tr s).dispatches.length = s.dispatches.length + tr.length
  | [], s, _ => by
      rw [flushGo_nil]
      exact ⟨rfl, rfl⟩
  | PopResult.ioFault :: rest, s, h => by
      obtain ⟨r, hr⟩ := h PopResult.ioFault (by simp)
      cases hr
  | PopResult.item req :: rest, s, h => by
      rw [flushGo_cons_item]
      have hc := flushStep_closing_fields { s with inbox := rest } req
      rw [if_neg (by rw [hc.1]; exact Bool.false_ne_true)]
      have hrec := flushGo_drain rest (flushStep true { s with inbox := rest } req).1
        (fun x hx => h x (List.mem_cons_of_mem _ hx))
      refine ⟨hrec.1, ?_⟩
      rw [hrec.2, hc.2]
      simp [List.length_cons]
      omega

/-- C2 counterexample: the claim says a `flush` with `closing=false`
retrieves and processes at most one envelope.  On the sample actor with
two queued envelopes whose first dispatch raises `KeyError` (an
`on_actor_exit` from a sender that is not linked), one `flush(False)` call
retrieves and dispatches both envelopes: the loop's per-tick break sits
inside the `try`, so a raising dispatch skips it. -/
theorem c2_counterexample :
    (flush twoItemState false).dispatches.length = 2 ∧
    (flush twoItemState false).inbox = [] ∧
    cbCount (flush twoItemState false).sent = 1 ∧
    (flush twoItemState false).logs = [LogEntry.workerError PyExn.keyError] := by
  decide

/-- C2 amended.  With `closing=false`: an empty queue or an `IOError`
fault ends the step silently; a retrieved envelope whose processing step
does not raise ends the step (at most one envelope in that case); an
envelope whose dispatch raises is logged and the loop continues with the
next pop.  With `closing=true` and no queue fault, every envelope is
popped and dispatched until the mailbox reports empty. -/
theorem c2_flush_loop (s : ActorState) (c : Bool) (req : ActorRequest)
    (rest : List PopResult) :
    (s.inbox = [] → flush s c = s) ∧
    (s.inbox = PopResult.ioFault :: rest → flush s c = { s with inbox := rest }) ∧
    (s.inbox = PopResult.item req :: rest →
      ((flushStep false { s with inbox := rest } req).2 = true →
        flush s false = (flushStep false { s with inbox := rest } req).1 ∧
        (flush s false).inbox = rest ∧
        (flush s false).dispatches.length ≤ s.dispatches.length + 1) ∧
      ((flushStep false { s with inbox := rest } req).2 = false →
        flush s false = flushGo false rest (flushStep false { s with inbox := rest } req).1)) ∧
    ((∀ x ∈ s.inbox, ∃ r, x = PopResult.item r) →
        (flush s true).inbox = [] ∧
        (flush s true).dispatches.length = s.dispatches.length + s.inbox.length) := by
  refine ⟨?_, ?_, ?_, ?_⟩
  · intro h
    unfold flush
    rw [h, flushGo_nil, ← h]
  · intro h
    unfold flush
    rw [h]
    rfl
  · intro h
    constructor
    · intro hbrk
      have hflush : flush s false = flushGo false (PopResult.item req :: rest) s := by
        unfold flush; rw [h]
      rw [hflush, flushGo_cons_item, if_pos hbrk]
      have hin := (flushStep_inv false { s with inbox := rest } req).2.2.2.2.2.1
      refine ⟨rfl, hin, ?_⟩
      by_cases hg : get_actor { s with inbox := rest } req.aid = Option.none
      · rw [flushStep_unresolved hg]
        simp
      · have hng : ¬(get_actor { s with inbox := rest } req.aid = Option.none ∧
            false = false) := fun h2 => hg h2.1
        rcases hh : handle_request_from_actor (dispatchRecorded { s with inbox := rest } req)
            (get_actor { s with inbox := rest } req.aid) req with e | s1
        · rw [flushStep_dispatch_err hng hh]
          simp [dispatchRecorded]
        · rw [flushStep_dispatch_ok hng hh]
          have hdp := (handle_ok_inv hh).2.2.2.2.2.2.2.1
          show s1.dispatches.length ≤ s.dispatches.length + 1
          rw [hdp]
          simp [dispatchRecorded]
    · intro hbrk
      have hflush : flush s false = flushGo false (PopResult.item req :: rest) s := by
        unfold flush; rw [h]
      rw [hflush, flushGo_cons_item, if_neg (by rw [hbrk]; exact Bool.false_ne_true)]
  · intro hall
    unfold flush
    exact flushGo_drain s.inbox s hall

/-- C2 witness: a `flush(False)` on the sample actor with one `ping`
queued processes exactly that envelope and stops. -/
theorem c2_witness :
    flush { sampleState with inbox := [PopResult.item pingReq] } false =
      (flushStep false sampleState pingReq).1 :=
  (((c2_flush_loop { sampleState with inbox := [PopResult.item pingReq] } false pingReq []).2.2.1
      rfl).1 (by decide)).1

/-- C1 counterexample: on the exit path where the event loop raises an
ordinary exception and no `stop()` ever ran (the stopping flag is clear),
`_stop()` is invoked by the `finally` block but its guarded body does not
execute: `on_exit` runs zero times, the state stays `RUN` and the mailbox
is never closed — the claim requires exactly one `on_exit` and one mailbox
close on every exit path. -/
theorem c1_counterexample :
    sampleState.stopping = false ∧
    (_run sampleState RunOutcome.exc).1.events.count Ev.onExitHook = 0 ∧
    (_run sampleState RunOutcome.exc).1.events.count Ev.closeInbox = 0 ∧
    (_run sampleState RunOutcome.exc).1.state = RUN := by
  decide

/-- Closed form of the run call's exit when the stopping flag is set at
loop exit. -/
lemma _run_closed_form (s : ActorState) (o : RunOutcome) (h : s.stopping = true) :
    (_run s o).1 =
      { s with
          state := CLOSE, stopping := false,
          sent := if s.impl ≠ "monitor"
                  then s.sent ++ [SentMsg.mk s.arbiter ("on_actor_exit") []]
                  else s.sent,
          events := s.events ++ stopSeg s.impl,
          logs := (match o with
            | RunOutcome.exc => s.logs ++ [LogEntry.excInWorker]
            | _ => s.logs) ++ [LogEntry.exitingRun] } := by
  rcases o <;> exact _stop_body h

/-- C1 amended.  `_stop()` is invoked on every exit path of the run call
(normal return, exception, `SystemExit` — which still propagates), but its
body is guarded by the stopping flag.  When the flag is set at loop exit,
the body runs exactly once: `on_exit` once, state `CLOSED`, the loop task
removed, the arbiter notified of the exit unless the actor is a monitor,
and the mailbox closed once as its last step; a second `_stop()` (the loop
stop callback and the run call's cleanup can both invoke it) does nothing;
and the body never runs while the flag is clear. -/
theorem c1_finalize_once (s : ActorState) (o : RunOutcome) (hstop : s.stopping = true) :
    (_run s o).1.state = CLOSE ∧
    (_run s o).2 = decide (o = RunOutcome.systemExit) ∧
    (∃ seg, (_run s o).1.events = s.events ++ seg ∧
        seg.count Ev.onExitHook = 1 ∧
        seg.count Ev.closeInbox = 1 ∧
        seg.getLast? = some Ev.closeInbox ∧
        Ev.removeLoopTask ∈ seg ∧
        (s.impl ≠ "monitor" → Ev.sendExitToArbiter ∈ seg) ∧
        (s.impl = "monitor" → Ev.sendExitToArbiter ∉ seg)) ∧
    (s.impl ≠ "monitor" →
        (_run s o).1.sent = s.sent ++ [SentMsg.mk s.arbiter ("on_actor_exit") []]) ∧
    (s.impl = "monitor" → (_run s o).1.sent = s.sent) ∧
    _stop (_run s o).1 = (_run s o).1 ∧
    (∀ t : ActorState, t.stopping = false → _stop t = t) := by
  rw [_run_closed_form s o hstop]
  obtain ⟨f1, f2, f3, f4, f5, f6⟩ := stopSeg_facts s.impl
  refine ⟨rfl, rfl, ⟨stopSeg s.impl, rfl, f1, f2, f3, f4, f5, f6⟩, ?_, ?_,
    _stop_noop rfl, fun t ht => _stop_noop ht⟩
  · intro hm
    simp [hm]
  · intro hm
    simp [hm]

/-- C1 witness: with the stopping flag set, a normal loop exit finalises
(state `CLOSED`) and a second `_stop` changes nothing. -/
theorem c1_witness :
    (_run stoppingState RunOutcome.normal).1.state = CLOSE ∧
    _stop (_run stoppingState RunOutcome.normal).1 =
      (_run stoppingState RunOutcome.normal).1 :=
  ⟨(c1_finalize_once stoppingState RunOutcome.normal rfl).1,
   (c1_finalize_once stoppingState RunOutcome.normal rfl).2.2.2.2.2.1⟩

/-- The heartbeat with no previous notification and a nonzero timestamp:
record it and notify the arbiter. -/
lemma heartbeatStep_none {s : ActorState} {now : ℚ}
    (h : s.lastNotified = Option.none) (hnz : now ≠ 0) :
    heartbeatStep s now =
      { s with lastNotified := some now,
               sent := s.sent ++ [SentMsg.mk s.arbiter ("notify") [Val.vrat now]] } := by
  unfold heartbeatStep
  rw [h]
  simp [hnz]

/-- The heartbeat when the debounce interval has elapsed: record and
notify. -/
lemma heartbeatStep_due {s : ActorState} {now ln : ℚ}
    (h : s.lastNotified = some ln) (hd : toleOf s ≤ now - ln) (hnz : now ≠ 0) :
    heartbeatStep s now =
      { s with lastNotified := some now,
               sent := s.sent ++ [SentMsg.mk s.arbiter ("notify") [Val.vrat now]] } := by
  unfold heartbeatStep
  rw [h]
  have hd2 : ¬(now - ln < toleOf s) := not_lt.mpr hd
  simp [hd2, hnz]

/-- The heartbeat inside the debounce interval: skip. -/
lemma heartbeatStep_skip {s : ActorState} {now ln : ℚ}
    (h : s.lastNotified = some ln) (hl : now - ln < toleOf s) :
    heartbeatStep s now = s := by
  unfold heartbeatStep
  rw [h]
  simp [hl]

/-- Fields the `on_task` step never touches. -/
lemma onTaskStep_inv (x : ActorState) :
    (onTaskStep x).lastNotified = x.lastNotified ∧ (onTaskStep x).sent = x.sent ∧
    (onTaskStep x).state = x.state ∧ (onTaskStep x).stopping = x.stopping ∧
    (onTaskStep x).arbiter = x.arbiter := by
  by_cases hb : x.stopping = false <;> simp [onTaskStep, hb]

/-- The `on_task` hook does not run while stopping. -/
lemma onTaskStep_stopping {x : ActorState} (h : x.stopping = true) : onTaskStep x = x := by
  unfold onTaskStep
  rw [h]
  simp

/-- `toleOf` depends only on the timeout field. -/
lemma toleOf_congr {t1 t2 : ActorState} (h : t1.timeout = t2.timeout) :
    toleOf t1 = toleOf t2 := by
  unfold toleOf
  rw [h]

/-- C4.  The heartbeat debounce on a tick of a non-monitor actor with an
arbiter, at a positive wall-clock timestamp: with `tole =
ACTOR_TIMEOUT_TOLERANCE * timeout` for nonzero timeout and
`DEFAULT_ACTOR_TIMEOUT` for zero timeout, a `notify(now)` is sent to the
arbiter and `last_notified` set to `now` exactly when no previous
notification exists or `now - last_notified >= tole`; otherwise nothing is
sent and `last_notified` is unchanged. -/
theorem c4_heartbeat_debounce (s : ActorState) (now : ℚ) (a : String)
    (harb : s.arbiter = some a) (hmon : s.impl ≠ "monitor") (hnow : 0 < now) :
    ((s.lastNotified = Option.none ∨
        (∃ ln, s.lastNotified = some ln ∧ toleOf s ≤ now - ln)) →
      (tick_call s now).lastNotified = some now ∧
      (∃ l, (tick_call s now).sent = l ++ [SentMsg.mk (some a) ("notify") [Val.vrat now]] ∧
          notifyCount l = notifyCount s.sent)) ∧
    ((∃ ln, s.lastNotified = some ln ∧ now - ln < toleOf s) →
      (tick_call s now).lastNotified = s.lastNotified ∧
      notifyCount (tick_call s now).sent = notifyCount s.sent) := by
  obtain ⟨fi, ft, farb, fst, fln, fot, fstp, ⟨ext, hsent, hext⟩, _⟩ :=
    flushGo_inv false s.inbox s
  have hflush_eq : flush s false = flushGo false s.inbox s := rfl
  have harb2 : (flush s false).arbiter = some a := by rw [hflush_eq, farb, harb]
  have hmon2 : (flush s false).impl ≠ "monitor" := by rw [hflush_eq, fi]; exact hmon
  have hln2 : (flush s false).lastNotified = s.lastNotified := by rw [hflush_eq, fln]
  have hsent2 : (flush s false).sent = s.sent ++ ext := by rw [hflush_eq, hsent]
  have htol : toleOf (flush s false) = toleOf s :=
    toleOf_congr (by rw [hflush_eq, ft])
  have hg : ((flush s false).arbiter.isSome = true ∧ (flush s false).impl ≠ "monitor") := by
    rw [harb2]; exact ⟨rfl, hmon2⟩
  have htick : tick_call s now = onTaskStep (heartbeatStep (flush s false) now) := by
    unfold tick_call
    rw [if_pos hg]
  constructor
  · intro hdue
    have hb : heartbeatStep (flush s false) now =
        { (flush s false) with
            lastNotified := some now,
            sent := (flush s false).sent ++
              [SentMsg.mk (flush s false).arbiter ("notify") [Val.vrat now]] } := by
      rcases hdue with hnone | ⟨ln, hln, hd⟩
      · exact heartbeatStep_none (by rw [hln2, hnone]) (ne_of_gt hnow)
      · exact heartbeatStep_due (by rw [hln2, hln]) (by rw [htol]; exact hd) (ne_of_gt hnow)
    rw [htick, hb]
    constructor
    · rw [(onTaskStep_inv _).1]
    · refine ⟨(flush s false).sent, ?_, ?_⟩
      · rw [(onTaskStep_inv _).2.1, harb2]
      · rw [hsent2]
        exact notifyCount_append_callbacks s.sent ext hext
  · rintro ⟨ln, hln, hlt⟩
    have hb : heartbeatStep (flush s false) now = flush s false :=
      heartbeatStep_skip (by rw [hln2, hln]) (by rw [htol]; exact hlt)
    rw [htick, hb]
    constructor
    · rw [(onTaskStep_inv _).1, hln2]
    · rw [(onTaskStep_inv _).2.1, hsent2]
      exact notifyCount_append_callbacks s.sent ext hext

/-- C4 witness: the sample actor with no previous notification sends a
first heartbeat at time 100. -/
theorem c4_witness : (tick_call sampleState 100).lastNotified = some 100 :=
  ((c4_heartbeat_debounce sampleState 100 "arb" rfl (by decide) (by decide)).1
    (Or.inl rfl)).1

/-- C6 counterexample: on a tick taken while the stopping flag is set, the
sample actor (non-monitor, with an arbiter, heartbeat due) still sends a
`notify` and updates `last_notified` — the heartbeat check is not guarded
by the stopping flag; only `on_task` is. -/
theorem c6_counterexample :
    stoppingState.stopping = true ∧
    notifyCount (tick_call stoppingState 100).sent = notifyCount stoppingState.sent + 1 ∧
    (tick_call stoppingState 100).lastNotified = some 100 ∧
    (tick_call stoppingState 100).onTaskCount = stoppingState.onTaskCount := by
  decide

/-- C6 amended.  On a tick taken while the stopping flag is set, the
`on_task` hook does not run; the heartbeat check, however, runs regardless
of the stopping flag — it fires whenever the actor is a non-monitor with
an arbiter and the debounce allows. -/
theorem c6_stopping_tick (s : ActorState) (now : ℚ) (hstop : s.stopping = true) :
    (tick_call s now).onTaskCount = s.onTaskCount ∧
    (∀ a, s.arbiter = some a → s.impl ≠ "monitor" → s.lastNotified = Option.none →
      0 < now →
      (tick_call s now).lastNotified = some now ∧
      ∃ l, (tick_call s now).sent = l ++ [SentMsg.mk (some a) ("notify") [Val.vrat now]]) := by
  obtain ⟨fi, ft, farb, fst, fln, fot, fstp, ⟨ext, hsent, hext⟩, _⟩ :=
    flushGo_inv false s.inbox s
  have hflush_eq : flush s false = flushGo false s.inbox s := rfl
  have hstop2 : (flush s false).stopping = true := by rw [hflush_eq]; exact fstp hstop
  have hot2 : (flush s false).onTaskCount = s.onTaskCount := by rw [hflush_eq, fot]
  constructor
  · unfold tick_call
    by_cases hg : ((flush s false).arbiter.isSome = true ∧ (flush s false).impl ≠ "monitor")
    · rw [if_pos hg]
      rw [onTaskStep_stopping (by rw [(heartbeatStep_inv _ now).2.1]; exact hstop2)]
      rw [(heartbeatStep_inv _ now).2.2.1]
      exact hot2
    · rw [if_neg hg]
      rw [onTaskStep_stopping hstop2]
      exact hot2
  · intro a harb hmon hln hnow
    have harb2 : (flush s false).arbiter = some a := by rw [hflush_eq, farb, harb]
    have hmon2 : (flush s false).impl ≠ "monitor" := by rw [hflush_eq, fi]; exact hmon
    have hg : ((flush s false).arbiter.isSome = true ∧ (flush s false).impl ≠ "monitor") := by
      rw [harb2]; exact ⟨rfl, hmon2⟩
    have htick : tick_call s now = onTaskStep (heartbeatStep (flush s false) now) := by
      unfold tick_call
      rw [if_pos hg]
    have hb : heartbeatStep (flush s false) now =
        { (flush s false) with
            lastNotified := some now,
            sent := (flush s false).sent ++
              [SentMsg.mk (flush s false).arbiter ("notify") [Val.vrat now]] } :=
      heartbeatStep_none (by rw [hflush_eq, fln]; exact hln) (ne_of_gt hnow)
    rw [htick, hb]
    constructor
    · rw [(onTaskStep_inv _).1]
    · refine ⟨(flush s false).sent, ?_⟩
      rw [(onTaskStep_inv _).2.1, harb2]

/-- C6 amended witness: the stopping sample actor's tick skips `on_task`. -/
theorem c6_witness :
    (tick_call stoppingState 100).onTaskCount = stoppingState.onTaskCount :=
  (c6_stopping_tick stoppingState 100 rfl).1

/-- `_stop` either closes the actor or leaves the state untouched. -/
lemma _stop_state (t : ActorState) :
    (_stop t).state = CLOSE ∨ (_stop t).state = t.state := by
  by_cases h : t.stopping = true
  · left
    rw [_stop_body h]
  · right
    rw [_stop_noop (by simpa using h)]

/-- The run call either closes the actor or leaves the state untouched. -/
lemma _run_state (t : ActorState) (o : RunOutcome) :
    (_run t o).1.state = CLOSE ∨ (_run t o).1.state = t.state := by
  rcases o <;> exact _stop_state _

/-- A tick never changes the lifecycle state. -/
lemma tick_call_state (s : ActorState) (now : ℚ) : (tick_call s now).state = s.state := by
  unfold tick_call
  by_cases hg : ((flush s false).arbiter.isSome = true ∧ (flush s false).impl ≠ "monitor")
  · rw [if_pos hg, (onTaskStep_inv _).2.2.1, (heartbeatStep_inv _ now).1]
    exact (flushGo_inv false s.inbox s).2.2.2.1
  · rw [if_neg hg, (onTaskStep_inv _).2.2.1]
    exact (flushGo_inv false s.inbox s).2.2.2.1

/-- `start` from `INITIAL`: boot, set `RUN`, enter the run call, return
self. -/
lemma start_initial {s : ActorState} (o : RunOutcome) (h : s.state = INITIAL) :
    start s o =
      ((_run { s with onStartCount := s.onStartCount + 1,
                      logs := s.logs ++ [LogEntry.booting], state := RUN } o).1, true,
       (_run { s with onStartCount := s.onStartCount + 1,
                      logs := s.logs ++ [LogEntry.booting], state := RUN } o).2) := by
  unfold start
  rw [if_pos h]

/-- `start` outside `INITIAL` falls through and returns `None`. -/
lemma start_noop {s : ActorState} (o : RunOutcome) (h : s.state ≠ INITIAL) :
    start s o = (s, false, false) := by
  unfold start
  rw [if_neg h]

/-- C5.  The lifecycle is monotone over `INITIAL < RUN < CLOSE` (the
`TERMINATE` value is never assigned: `terminate()` aliases `stop()`):
every operation keeps `state` within `CLOSE` and non-decreasing; `start()`
acts only from `INITIAL`, where it returns the actor itself and moves the
state to at least `RUN`, and is an effect-free no-op otherwise; `stop()`
is a no-op once stopping or at least `CLOSED`; `started()` holds iff
`state ≥ RUN` and `stopped()` holds iff `state ≥ CLOSE`. -/
theorem c5_lifecycle_monotone (s : ActorState) (o : RunOutcome) (op : ActorOp) :
    (s.state ≤ CLOSE → s.state ≤ (applyOp s op).state ∧ (applyOp s op).state ≤ CLOSE) ∧
    (s.state = INITIAL → (start s o).2.1 = true ∧ RUN ≤ (start s o).1.state ∧
        (start s o).1.state ≤ CLOSE) ∧
    (s.state ≠ INITIAL → start s o = (s, false, false)) ∧
    (s.stopping = true ∨ CLOSE ≤ s.state → stop s = s) ∧
    (started s = true ↔ RUN ≤ s.state) ∧
    (stopped s = true ↔ CLOSE ≤ s.state) := by
  refine ⟨?_, ?_, ?_, ?_, ?_, ?_⟩
  · intro hle
    cases op with
    | opStart o2 =>
        show s.state ≤ (start s o2).1.state ∧ (start s o2).1.state ≤ CLOSE
        by_cases hI : s.state = INITIAL
        · rw [start_initial o2 hI]
          rcases _run_state { s with onStartCount := s.onStartCount + 1,
                                     logs := s.logs ++ [LogEntry.booting],
                                     state := RUN } o2 with h2 | h2 <;>
            rw [h2] <;> rw [hI] <;> simp [INITIAL, RUN, CLOSE]
        · rw [start_noop o2 hI]
          exact ⟨le_refl _, hle⟩
    | opStop =>
        show s.state ≤ (stop s).state ∧ (stop s).state ≤ CLOSE
        rw [(stop_inv s).2.2.2.2.2.1]
        exact ⟨le_refl _, hle⟩
    | opStopCb =>
        show s.state ≤ (_stop s).state ∧ (_stop s).state ≤ CLOSE
        rcases _stop_state s with h2 | h2 <;> rw [h2]
        · exact ⟨hle, le_refl _⟩
        · exact ⟨le_refl _, hle⟩
    | opTick now =>
        show s.state ≤ (tick_call s now).state ∧ (tick_call s now).state ≤ CLOSE
        rw [tick_call_state]
        exact ⟨le_refl _, hle⟩
  · intro hI
    rw [start_initial o hI]
    refine ⟨rfl, ?_, ?_⟩ <;>
      rcases _run_state { s with onStartCount := s.onStartCount + 1,
                                 logs := s.logs ++ [LogEntry.booting],
                                 state := RUN } o with h2 | h2 <;>
        rw [h2] <;> simp [RUN, CLOSE]
  · intro hI
    exact start_noop o hI
  · intro hD
    rcases hD with hstp | hcl
    · unfold stop
      rw [if_neg]
      rintro ⟨_, h2⟩
      rw [hstp] at h2
      cases h2
    · unfold stop
      rw [if_neg]
      rintro ⟨h1, _⟩
      simp [is_alive] at h1
      rw [h1] at hcl
      simp [CLOSE, RUN] at hcl
  · simp [started]
  · simp [stopped]

/-- C5 witness: `stop()` on the closed sample actor is a no-op, a second
`start()` has no effect, and the predicates evaluate as stated. -/
theorem c5_witness :
    stop closedSample = closedSample ∧
    start closedSample RunOutcome.normal = (closedSample, false, false) ∧
    (started sampleState = true ↔ RUN ≤ sampleState.state) :=
  ⟨(c5_lifecycle_monotone closedSample RunOutcome.normal ActorOp.opStop).2.2.2.1
      (Or.inr (by decide)),
   (c5_lifecycle_monotone closedSample RunOutcome.normal ActorOp.opStop).2.2.1 (by decide),
   (c5_lifecycle_monotone sampleState RunOutcome.normal ActorOp.opStop).2.2.2.2.1⟩

end Pulsar
